import Mathlib

/-!
Shallow embedding of `src/universal_mcp_serpapi/app.py` (class `SerpapiApp`).

The adapter state is the pair of the cached API key (`_serpapi_api_key`) and the
optional integration.  The integration's `get_credentials()` and `authorize()`
calls are modelled as values describing their outcome (return value or raised
exception); the remote HTTP calls are modelled as oracle functions supplied as
arguments, mapping the query parameters actually sent to the outcome of the call.
`NotAuthorizedError` is modelled as the `.error` branch of `Except String`,
carrying the exception message; every other outcome of an operation is a
returned value in the `.ok` branch.
-/

/-- ASCII lowering of a string, modelling Python's `str.lower()` on the
character level (`Char.toLower` lowers exactly the ASCII uppercase letters). -/
def pyLower (s : String) : String := String.mk (s.toList.map Char.toLower)

/-- Boolean prefix test on character lists. -/
def isPrefixB : List Char → List Char → Bool
| [], _ => true
| _ :: _, [] => false
| a :: as, b :: bs => a == b && isPrefixB as bs

/-- Boolean contiguous-sublist test on character lists. -/
def isInfixB (n h : List Char) : Bool :=
  match h with
  | [] => n.isEmpty
  | _ :: t => isPrefixB n h || isInfixB n t

/-- Python's `needle in hay` substring test. -/
def strContains (hay needle : String) : Bool := isInfixB needle.toList hay.toList

/-- Python's `a or b` on two optional strings, where `None` and the empty
string are falsy. -/
def pyOr (a b : Option String) : Option String :=
  match a with
  | some s => if s = "" then b else some s
  | none => b

/-- Python truthiness of an optional string. -/
def pyTruthy (a : Option String) : Bool :=
  match a with
  | some s => s ≠ ""
  | none => false

/-- A Python dict of strings, modelled as an association list with unique
lookup semantics (`dictGet` reads the first binding, `dictInsert` shadows). -/
def dictGet (d : List (String × String)) (k : String) : Option String :=
  (d.find? (fun p => p.1 == k)).map (·.2)

/-- Python dict assignment `d[k] = v`: the resulting dict maps `k` to `v` and
every other key as before. -/
def dictInsert (d : List (String × String)) (k v : String) : List (String × String) :=
  (k, v) :: d.filter (fun p => !(p.1 == k))

/-- The value a key holds after all entries of `ps` are written into a dict in
order: the last write wins, as in Python's `{..., **ps}`. -/
def lookupLast (ps : List (String × String)) (k : String) : Option String :=
  (ps.reverse.find? (fun p => p.1 == k)).map (·.2)

/-- Python's `credentials.get(k)` on the credential mapping. -/
def credGet (creds : List (String × String)) (k : String) : Option String :=
  (creds.find? (fun p => p.1 == k)).map (·.2)

/-- Outcome of `integration.get_credentials()`: a credential mapping, a raised
`NotAuthorizedError`, or any other raised exception. -/
inductive CredFetch
| ok (creds : List (String × String))
| notAuthorized (msg : String)
| otherExc (msg : String)

/-- Value returned by `integration.authorize()`: a string, a dict possibly
holding `url` and `message` entries, or anything else. -/
inductive AuthDetails
| str (s : String)
| dict (url : Option String) (message : Option String)
| other

/-- Outcome of calling `integration.authorize()`: a raised exception or a
returned value. -/
inductive AuthorizeOutcome
| raises (msg : String)
| returns (details : AuthDetails)

/-- The integration collaborator: the outcome of `get_credentials()` and, when
the attribute exists, the outcome of `authorize()`. -/
structure Integration where
  get_credentials : CredFetch
  authorize : Option AuthorizeOutcome

/-- The adapter state set up by `SerpapiApp.__init__`: the key cache and the
integration. -/
structure SerpapiApp where
  _serpapi_api_key : Option String
  integration : Option Integration

/-- Result of one access of the `serpapi_api_key` property: the returned key or
the raised `NotAuthorizedError` message, the state after the access, and how
many `get_credentials` calls the access made. -/
structure ResolveOut where
  result : Except String String
  state : SerpapiApp
  providerCalls : Nat

/-- Message of the `NotAuthorizedError` raised when no integration is
configured. -/
def no_integration_message : String :=
  "Integration not configured for SerpApi App. Cannot retrieve API key."

/-- Default `action_message` used when the API key is missing from the
credentials. -/
def default_action_message : String :=
  "API key for SerpApi is missing. Please ensure it's set in the store (e.g., SERPAPI_API_KEY in credentials)."

/-- The `action_message` after the enrichment attempt via
`integration.authorize()` (exceptions of `authorize()` are swallowed). -/
def action_message (integ : Integration) : String :=
  match integ.authorize with
  | none => default_action_message
  | some (.raises _) => default_action_message
  | some (.returns (.str s)) => s
  | some (.returns (.dict (some u) _)) => "Please authorize via: " ++ u
  | some (.returns (.dict none (some m))) => m
  | some (.returns (.dict none none)) => default_action_message
  | some (.returns .other) => default_action_message

/-- The `serpapi_api_key` property: returns the cached key, or resolves it from
the integration, caching it on success. -/
def serpapi_api_key (app : SerpapiApp) : ResolveOut :=
  match app._serpapi_api_key with
  | some k => ⟨.ok k, app, 0⟩
  | none =>
    match app.integration with
    | none => ⟨.error no_integration_message, app, 0⟩
    | some integ =>
      match integ.get_credentials with
      | .notAuthorized m => ⟨.error m, app, 1⟩
      | .otherExc m => ⟨.error ("Failed to get SerpApi credentials: " ++ m), app, 1⟩
      | .ok credentials =>
        match pyOr (pyOr (credGet credentials "api_key") (credGet credentials "API_KEY"))
            (credGet credentials "apiKey") with
        | none => ⟨.error (action_message integ), app, 1⟩
        | some k =>
          if k = "" then ⟨.error (action_message integ), app, 1⟩
          else ⟨.ok k, { app with _serpapi_api_key := some k }, 1⟩

/-- Folding `n` successive accesses of `serpapi_api_key`, returning the final
state and the total number of `get_credentials` calls. -/
def accessN : Nat → SerpapiApp → SerpapiApp × Nat
| 0, app => (app, 0)
| n + 1, app =>
  let r := serpapi_api_key app
  let p := accessN n r.state
  (p.1, r.providerCalls + p.2)

/-- The JSON body of a SerpApi response, restricted to the fields `search`
inspects: the `error` string and the `organic_results` array of entries with
optional `title`, `link`, `snippet`. -/
structure OrganicResult where
  title : Option String
  link : Option String
  snippet : Option String

/-- Response data inspected by `search`. -/
structure ResponseData where
  error : Option String
  organic_results : Option (List OrganicResult)

/-- Outcome of `SerpApiSearch(params).get_dict()`: a response body, a raised
`httpx.HTTPStatusError` with status code and response text, or any other
raised exception with its message. -/
inductive GetDictOutcome
| ok (data : ResponseData)
| httpStatusError (status : Nat) (text : String)
| exc (msg : String)

/-- Keywords scanned for in an API-reported `error` field. -/
def auth_error_keywords : List String :=
  ["invalid api key", "authorization failed", "api key needed", "forbidden",
   "account disabled", "private api key is missing"]

/-- Keywords scanned for in the message of a generic exception. -/
def exc_auth_keywords : List String :=
  ["authentication", "api key", "unauthorized", "401", "forbidden", "invalid key"]

/-- Formatting of one organic result inside `search`. -/
def formatResult (r : OrganicResult) : String :=
  "Title: " ++ r.title.getD "No title" ++ "\nLink: " ++ r.link.getD "No link" ++
    "\nSnippet: " ++ r.snippet.getD "No snippet" ++ "\n"

/-- The query parameters `search` sends: the dict literal
`{api_key, engine: "google_light"}` with the caller's params written over it. -/
def buildSearchQuery (key : String) (request_params : List (String × String)) :
    List (String × String) :=
  request_params.foldl (fun d p => dictInsert d p.1 p.2)
    [("api_key", key), ("engine", "google_light")]

/-- The reply of the `search` operation, given the outcome of key resolution
(the state only changes through the `serpapi_api_key` access, so the reply is
a pure function of the resolution result, the caller's params and the remote
outcome): a returned string in `.ok`, a raised `NotAuthorizedError` message in
`.error`.  This is the body of the try/except of `SerpapiApp.search`. -/
def searchReply (key_result : Except String String)
    (request_params : List (String × String))
    (remote : List (String × String) → GetDictOutcome) : Except String String :=
  match key_result with
  | .error m => .error m
  | .ok key =>
    match remote (buildSearchQuery key request_params) with
    | .ok data =>
      match data.error with
      | some error_message =>
        if auth_error_keywords.any (fun kw => strContains (pyLower error_message) kw) then
          .error ("SerpApi Error: " ++ error_message)
        else
          .ok ("SerpApi API Error: " ++ error_message)
      | none =>
        match data.organic_results with
        | some results =>
          let formatted_results := results.map formatResult
          .ok (if formatted_results.isEmpty then "No organic results found."
               else String.intercalate "\n" formatted_results)
        | none => .ok "No organic results found."
    | .httpStatusError status text =>
      if status = 429 then
        .ok "Error: Rate limit exceeded (HTTP 429). Please try again later."
      else if status = 401 then
        .error "Error: Invalid API key (HTTP 401). Please check your SERPAPI_API_KEY."
      else
        .ok ("HTTP Error: " ++ toString status ++ " - " ++ text)
    | .exc msg =>
      if exc_auth_keywords.any (fun kw => strContains (pyLower msg) kw) then
        .error ("SerpApi authentication/authorization failed: " ++ msg)
      else
        .ok ("An unexpected error occurred during search: " ++ msg)

/-- The `search` operation.  `params` is the caller's optional parameter dict;
`remote` maps the query parameters sent to the outcome of the remote call.
Returns the reply and the state after the call. -/
def search (app : SerpapiApp) (params : Option (List (String × String)))
    (remote : List (String × String) → GetDictOutcome) :
    Except String String × SerpapiApp :=
  let request_params := params.getD []
  let r := serpapi_api_key app
  (searchReply r.result request_params remote, r.state)

/-- An HTTP response from the transport used by the maps operations: a parsed
body, or a non-2xx status with its body text. -/
inductive HttpResponse (α : Type)
| ok (body : α)
| err (status : Nat) (text : String)

/-- Errors a maps operation can raise: a `NotAuthorizedError` from key
resolution, or an HTTP status error from the transport. -/
inductive MapsError
| notAuthorized (msg : String)
| httpStatus (status : Nat) (text : String)
deriving DecidableEq

/-- The search endpoint set by `__init__`. -/
def base_url : String := "https://serpapi.com/search"

/-- Modelled from the spec: `_handle_response` is inherited from the host
framework's `APIApplication` and is not part of this repository; per the spec
it returns the parsed response body unmodified, and any non-2xx HTTP response
fails with a generic HTTP error carrying status code and body. -/
def handle_response {α : Type} : HttpResponse α → Except MapsError α
| .ok body => .ok body
| .err status text => .error (.httpStatus status text)

/-- Query parameters built by `google_maps_search`: fixed engine, the query,
the key, and `ll` only when supplied. -/
def google_maps_search_query (key q : String) (ll : Option String) :
    List (String × String) :=
  let query_params := [("engine", "google_maps"), ("q", q), ("api_key", key)]
  match ll with
  | some l => query_params ++ [("ll", l)]
  | none => query_params

/-- The `google_maps_search` operation: resolve the key, build the query,
issue a GET against `base_url`, and hand the response to `handle_response`.
`get` maps the URL and query parameters sent to the HTTP response. -/
def google_maps_search {α : Type} (app : SerpapiApp) (q : String) (ll : Option String)
    (get : String → List (String × String) → HttpResponse α) :
    Except MapsError α × SerpapiApp :=
  let r := serpapi_api_key app
  (match r.result with
   | .error m => .error (.notAuthorized m)
   | .ok key => handle_response (get base_url (google_maps_search_query key q ll)), r.state)

/-- Query parameters built by `get_google_maps_reviews`: fixed engine, the
data id, the key, and `hl` always present, defaulting to `"en"`. -/
def get_google_maps_reviews_query (key data_id : String) (hl : Option String) :
    List (String × String) :=
  let query_params := [("engine", "google_maps_reviews"), ("data_id", data_id), ("api_key", key)]
  match hl with
  | some l => query_params ++ [("hl", l)]
  | none => query_params ++ [("hl", "en")]

/-- The `get_google_maps_reviews` operation. -/
def get_google_maps_reviews {α : Type} (app : SerpapiApp) (data_id : String)
    (hl : Option String) (get : String → List (String × String) → HttpResponse α) :
    Except MapsError α × SerpapiApp :=
  let r := serpapi_api_key app
  (match r.result with
   | .error m => .error (.notAuthorized m)
   | .ok key => handle_response (get base_url (get_google_maps_reviews_query key data_id hl)),
   r.state)

/-- Spec-side reading of "the credential mapping contains a usable key": some
alias holds a non-empty value. -/
def hasTruthyAlias (creds : List (String × String)) : Bool :=
  ["api_key", "API_KEY", "apiKey"].any (fun a =>
    match credGet creds a with
    | some v => v ≠ ""
    | none => false)

/-! ## Helper lemmas -/

lemma dictGet_nil (n : String) : dictGet [] n = none := rfl

lemma dictGet_cons (p : String × String) (d : List (String × String)) (n : String) :
    dictGet (p :: d) n = if p.1 == n then some p.2 else dictGet d n := by
  simp only [dictGet, List.find?_cons]
  split <;> simp_all

lemma find_filter_ne (d : List (String × String)) (k n : String) (h : k ≠ n) :
    (d.filter (fun p => !(p.1 == k))).find? (fun p => p.1 == n) =
      d.find? (fun p => p.1 == n) := by
  induction d with
  | nil => rfl
  | cons a t ih =>
    by_cases ha : a.1 = k
    · have h1 : (a.1 == k) = true := beq_iff_eq.mpr ha
      have h2 : (a.1 == n) = false := beq_eq_false_iff_ne.mpr (ha ▸ h)
      simp [List.filter_cons, h1, List.find?_cons, h2, ih]
    · have h1 : (a.1 == k) = false := beq_eq_false_iff_ne.mpr ha
      simp only [List.filter_cons, h1, Bool.not_false, if_true, List.find?_cons]
      split <;> simp_all

lemma dictGet_insert (d : List (String × String)) (k v n : String) :
    dictGet (dictInsert d k v) n = if k = n then some v else dictGet d n := by
  simp only [dictInsert, dictGet_cons]
  by_cases h : k = n
  · simp [h]
  · have h1 : (k == n) = false := beq_eq_false_iff_ne.mpr h
    simp [h1, h, dictGet, find_filter_ne d k n h]

lemma lookupLast_nil (n : String) : lookupLast [] n = none := rfl

lemma lookupLast_cons (p : String × String) (ps : List (String × String)) (n : String) :
    lookupLast (p :: ps) n =
      match lookupLast ps n with
      | some v => some v
      | none => if p.1 == n then some p.2 else none := by
  simp only [lookupLast, List.reverse_cons, List.find?_append]
  cases h : (ps.reverse.find? fun q => q.1 == n) with
  | none => simp [List.find?_cons]; split <;> simp_all
  | some q => simp

lemma dictGet_foldl (ps : List (String × String)) (d : List (String × String)) (n : String) :
    dictGet (ps.foldl (fun d p => dictInsert d p.1 p.2) d) n =
      match lookupLast ps n with
      | some v => some v
      | none => dictGet d n := by
  induction ps generalizing d with
  | nil => simp [lookupLast_nil]
  | cons p ps ih =>
    simp only [List.foldl_cons, ih, lookupLast_cons, dictGet_insert]
    cases lookupLast ps n with
    | some v => simp
    | none =>
      by_cases h : p.1 = n
      · simp [h]
      · have h1 : (p.1 == n) = false := beq_eq_false_iff_ne.mpr h
        simp [h, h1]

lemma resolve_cached (app : SerpapiApp) (k : String) (h : app._serpapi_api_key = some k) :
    serpapi_api_key app = ⟨.ok k, app, 0⟩ := by
  unfold serpapi_api_key
  rw [h]

lemma resolve_ok_caches (app : SerpapiApp) (k : String) (st : SerpapiApp) (c : Nat)
    (h : serpapi_api_key app = ⟨.ok k, st, c⟩) : st._serpapi_api_key = some k := by
  unfold serpapi_api_key at h
  split at h
  next k' hk =>
    obtain ⟨h1, h2, h3⟩ := ResolveOut.mk.inj h
    rw [← h2, hk, Except.ok.inj h1]
  next =>
    split at h
    · exact absurd (ResolveOut.mk.inj h).1 (by simp)
    · split at h
      · exact absurd (ResolveOut.mk.inj h).1 (by simp)
      · exact absurd (ResolveOut.mk.inj h).1 (by simp)
      · split at h
        · exact absurd (ResolveOut.mk.inj h).1 (by simp)
        · split at h
          · exact absurd (ResolveOut.mk.inj h).1 (by simp)
          · obtain ⟨h1, h2, h3⟩ := ResolveOut.mk.inj h
            rw [← h2]
            simp [Except.ok.inj h1]

lemma accessN_cached (n : Nat) (app : SerpapiApp) (k : String)
    (h : app._serpapi_api_key = some k) : accessN n app = (app, 0) := by
  induction n with
  | zero => rfl
  | succ m ih => simp [accessN, resolve_cached app k h, ih]

lemma resolve_miss (app : SerpapiApp) (k : String) (h0 : app._serpapi_api_key = none)
    (h : (serpapi_api_key app).result = .ok k) :
    (serpapi_api_key app).providerCalls = 1 ∧
      (serpapi_api_key app).state._serpapi_api_key = some k := by
  obtain ⟨cache, intg⟩ := app
  simp only at h0
  subst h0
  cases intg with
  | none => simp [serpapi_api_key] at h
  | some integ =>
    cases hgc : integ.get_credentials with
    | notAuthorized m => simp [serpapi_api_key, hgc] at h
    | otherExc m => simp [serpapi_api_key, hgc] at h
    | ok creds =>
      cases hch : pyOr (pyOr (credGet creds "api_key") (credGet creds "API_KEY"))
          (credGet creds "apiKey") with
      | none => simp [serpapi_api_key, hgc, hch] at h
      | some kk =>
        by_cases hk : kk = ""
        · simp [serpapi_api_key, hgc, hch, hk] at h
        · simp [serpapi_api_key, hgc, hch, hk] at h ⊢
          simp [h]

/-! ## Claims about `search` response handling -/

/-- Claim C1: when the response body of `search` carries an `error` field whose
lowercased text contains one of the authorization keywords, `search` raises
`NotAuthorizedError`; otherwise it returns (does not raise) the string
"SerpApi API Error: " followed by the error text.  In particular the body with
error "Invalid API key." raises, and the body with error "Missing q parameter"
returns "SerpApi API Error: Missing q parameter". -/
theorem C1_error_field_classification (app : SerpapiApp) (k : String)
    (ps : Option (List (String × String)))
    (remote : List (String × String) → GetDictOutcome) (body : ResponseData) (em : String)
    (hres : (serpapi_api_key app).result = .ok k)
    (hrem : remote (buildSearchQuery k (ps.getD [])) = .ok body)
    (herr : body.error = some em) :
    ((auth_error_keywords.any (fun kw => strContains (pyLower em) kw) = true →
        (search app ps remote).1 = .error ("SerpApi Error: " ++ em)) ∧
      (auth_error_keywords.any (fun kw => strContains (pyLower em) kw) = false →
        (search app ps remote).1 = .ok ("SerpApi API Error: " ++ em))) ∧
    (search ⟨some "K", none⟩ none
        (fun _ => .ok ⟨some "Invalid API key.", none⟩)).1 =
      .error "SerpApi Error: Invalid API key." ∧
    (search ⟨some "K", none⟩ none
        (fun _ => .ok ⟨some "Missing q parameter", none⟩)).1 =
      .ok "SerpApi API Error: Missing q parameter" := by
  refine ⟨⟨?_, ?_⟩, ?_, ?_⟩
  · intro hkw
    simp [search, searchReply, hres, hrem, herr, hkw]
  · intro hkw
    simp [search, searchReply, hres, hrem, herr, hkw]
  · rfl
  · rfl

/-- Claim C4: when the response body has a non-empty `organic_results`
sequence, `search` returns the entries formatted as Title/Link/Snippet lines
with the literal defaults "No title"/"No link"/"No snippet" for absent fields,
entries separated by a blank line; for the single entry with title "A", link
"http://a" and snippet "s" the result is exactly
"Title: A\nLink: http://a\nSnippet: s\n". -/
theorem C4_organic_results_formatting (app : SerpapiApp) (k : String)
    (ps : Option (List (String × String)))
    (remote : List (String × String) → GetDictOutcome) (body : ResponseData)
    (rs : List OrganicResult)
    (hres : (serpapi_api_key app).result = .ok k)
    (hrem : remote (buildSearchQuery k (ps.getD [])) = .ok body)
    (herr : body.error = none) (hor : body.organic_results = some rs)
    (hne : rs ≠ []) :
    (search app ps remote).1 = .ok (String.intercalate "\n" (rs.map formatResult)) ∧
    formatResult ⟨some "A", some "http://a", some "s"⟩ =
      "Title: A\nLink: http://a\nSnippet: s\n" ∧
    formatResult ⟨none, none, none⟩ =
      "Title: No title\nLink: No link\nSnippet: No snippet\n" ∧
    (search ⟨some "K", none⟩ none
        (fun _ => .ok ⟨none, some [⟨some "A", some "http://a", some "s"⟩]⟩)).1 =
      .ok "Title: A\nLink: http://a\nSnippet: s\n" := by
  refine ⟨?_, rfl, rfl, rfl⟩
  cases rs with
  | nil => exact absurd rfl hne
  | cons r t => simp [search, searchReply, hres, hrem, herr, hor]

/-- Claim C5: when the response body has no `error` field and its
`organic_results` is absent or an empty sequence, `search` returns exactly
"No organic results found.". -/
theorem C5_no_organic_results (app : SerpapiApp) (k : String)
    (ps : Option (List (String × String)))
    (remote : List (String × String) → GetDictOutcome) (body : ResponseData)
    (hres : (serpapi_api_key app).result = .ok k)
    (hrem : remote (buildSearchQuery k (ps.getD [])) = .ok body)
    (herr : body.error = none)
    (hor : body.organic_results = none ∨ body.organic_results = some []) :
    (search app ps remote).1 = .ok "No organic results found." := by
  rcases hor with hor | hor <;> simp [search, searchReply, hres, hrem, herr, hor]

/-- Claim C6: a transport HTTP status error in `search` is classified by
status code: 429 returns a rate-limit message string, 401 raises
`NotAuthorizedError`, and every other status returns the string
"HTTP Error: {status} - {body}". -/
theorem C6_http_status_classification (app : SerpapiApp) (k : String)
    (ps : Option (List (String × String))) (status : Nat) (text : String)
    (remote : List (String × String) → GetDictOutcome)
    (hres : (serpapi_api_key app).result = .ok k)
    (hrem : remote (buildSearchQuery k (ps.getD [])) = .httpStatusError status text) :
    (search app ps remote).1 =
      if status = 429 then
        .ok "Error: Rate limit exceeded (HTTP 429). Please try again later."
      else if status = 401 then
        .error "Error: Invalid API key (HTTP 401). Please check your SERPAPI_API_KEY."
      else .ok ("HTTP Error: " ++ toString status ++ " - " ++ text) := by
  simp [search, searchReply, hres, hrem]

/-- Claim C7: a generic exception in `search` whose lowercased message contains
one of the authentication keywords raises `NotAuthorizedError`, otherwise
`search` returns a generic unexpected-error string containing the message; and
a `NotAuthorizedError` raised during key resolution is re-raised unchanged,
never converted into a returned string. -/
theorem C7_exception_classification (app : SerpapiApp) (k : String)
    (ps : Option (List (String × String))) (msg : String)
    (remote : List (String × String) → GetDictOutcome)
    (hres : (serpapi_api_key app).result = .ok k)
    (hrem : remote (buildSearchQuery k (ps.getD [])) = .exc msg) :
    ((exc_auth_keywords.any (fun kw => strContains (pyLower msg) kw) = true →
        (search app ps remote).1 =
          .error ("SerpApi authentication/authorization failed: " ++ msg)) ∧
      (exc_auth_keywords.any (fun kw => strContains (pyLower msg) kw) = false →
        (search app ps remote).1 =
          .ok ("An unexpected error occurred during search: " ++ msg))) ∧
    (∀ (app2 : SerpapiApp) (ps2 : Option (List (String × String)))
        (remote2 : List (String × String) → GetDictOutcome) (m : String),
      (serpapi_api_key app2).result = .error m →
        (search app2 ps2 remote2).1 = .error m) := by
  refine ⟨⟨?_, ?_⟩, ?_⟩
  · intro hkw
    simp [search, searchReply, hres, hrem, hkw]
  · intro hkw
    simp [search, searchReply, hres, hrem, hkw]
  · intro app2 ps2 remote2 m hm
    simp [search, searchReply, hm]

/-! ## More helper lemmas -/

lemma pyTruthy_pyOr (a b : Option String) :
    pyTruthy (pyOr a b) = (pyTruthy a || pyTruthy b) := by
  cases a with
  | none => simp [pyOr, pyTruthy]
  | some s =>
    by_cases h : s = ""
    · simp [pyOr, pyTruthy, h]
    · simp [pyOr, pyTruthy, h]

lemma truthy_chain (creds : List (String × String)) :
    pyTruthy (pyOr (pyOr (credGet creds "api_key") (credGet creds "API_KEY"))
        (credGet creds "apiKey")) = hasTruthyAlias creds := by
  simp only [pyTruthy_pyOr, hasTruthyAlias, List.any_cons, List.any_nil, Bool.or_false]
  cases credGet creds "api_key" <;> cases credGet creds "API_KEY" <;>
    cases credGet creds "apiKey" <;> simp [pyTruthy, Bool.or_assoc]

lemma search_state (app : SerpapiApp) (ps : Option (List (String × String)))
    (remote : List (String × String) → GetDictOutcome) :
    (search app ps remote).2 = (serpapi_api_key app).state := rfl

lemma google_maps_search_state {α : Type} (app : SerpapiApp) (q : String)
    (ll : Option String) (get : String → List (String × String) → HttpResponse α) :
    (google_maps_search app q ll get).2 = (serpapi_api_key app).state := rfl

lemma get_google_maps_reviews_state {α : Type} (app : SerpapiApp) (data_id : String)
    (hl : Option String) (get : String → List (String × String) → HttpResponse α) :
    (get_google_maps_reviews app data_id hl get).2 = (serpapi_api_key app).state := rfl

/-! ## Claims about key resolution and query building -/

/-- Counterexample to claim C2 as stated: a credential mapping that does
contain the alias "api_key" — bound to the empty string — still makes key
resolution raise `NotAuthorizedError`, because the code tests Python
truthiness of the looked-up value, not membership of the alias. -/
theorem C2_alias_containment_refuted :
    credGet [("api_key", "")] "api_key" = some "" ∧
    (serpapi_api_key ⟨none, some ⟨.ok [("api_key", "")], none⟩⟩).result =
      .error default_action_message := by
  constructor
  · rfl
  · rfl

/-- Claim C2 (amended): key resolution raises `NotAuthorizedError` exactly
when no integration is configured (and then no credential fetch is
attempted), when `get_credentials` raises `NotAuthorizedError` (propagated
unchanged), when it raises any other exception (wrapped), or when the
credential mapping holds no non-empty value under any of the aliases
"api_key", "API_KEY", "apiKey" (a present but empty value counts as missing);
on the missing-key path the message is taken from `authorize()` when it
returns a string, a dict with a url, or a dict with a message, and an
exception raised by `authorize()` itself is swallowed, the error still being
raised with the default message. -/
theorem C2_key_resolution (integ : Integration) :
    ((serpapi_api_key ⟨none, none⟩).result = .error no_integration_message ∧
      (serpapi_api_key ⟨none, none⟩).providerCalls = 0) ∧
    (∀ m, integ.get_credentials = .notAuthorized m →
      serpapi_api_key ⟨none, some integ⟩ = ⟨.error m, ⟨none, some integ⟩, 1⟩) ∧
    (∀ m, integ.get_credentials = .otherExc m →
      serpapi_api_key ⟨none, some integ⟩ =
        ⟨.error ("Failed to get SerpApi credentials: " ++ m), ⟨none, some integ⟩, 1⟩) ∧
    (∀ creds, integ.get_credentials = .ok creds →
      (hasTruthyAlias creds = false →
        (serpapi_api_key ⟨none, some integ⟩).result = .error (action_message integ)) ∧
      (hasTruthyAlias creds = true →
        ∃ k, (serpapi_api_key ⟨none, some integ⟩).result = .ok k)) ∧
    ((∀ s, integ.authorize = some (.returns (.str s)) → action_message integ = s) ∧
      (∀ u mm, integ.authorize = some (.returns (.dict (some u) mm)) →
        action_message integ = "Please authorize via: " ++ u) ∧
      (∀ m, integ.authorize = some (.returns (.dict none (some m))) →
        action_message integ = m) ∧
      (∀ e, integ.authorize = some (.raises e) →
        action_message integ = default_action_message)) := by
  refine ⟨⟨rfl, rfl⟩, ?_, ?_, ?_, ?_, ?_, ?_, ?_⟩
  · intro m hm
    simp [serpapi_api_key, hm]
  · intro m hm
    simp [serpapi_api_key, hm]
  · intro creds hc
    have ht := truthy_chain creds
    constructor
    · intro hfalse
      rw [hfalse] at ht
      cases hch : pyOr (pyOr (credGet creds "api_key") (credGet creds "API_KEY"))
          (credGet creds "apiKey") with
      | none => simp [serpapi_api_key, hc, hch]
      | some kk =>
        rw [hch] at ht
        have hkk : kk = "" := by simpa [pyTruthy] using ht
        simp [serpapi_api_key, hc, hch, hkk]
    · intro htrue
      rw [htrue] at ht
      cases hch : pyOr (pyOr (credGet creds "api_key") (credGet creds "API_KEY"))
          (credGet creds "apiKey") with
      | none => rw [hch] at ht; simp [pyTruthy] at ht
      | some kk =>
        rw [hch] at ht
        have hkk : ¬ (kk = "") := by simpa [pyTruthy] using ht
        exact ⟨kk, by simp [serpapi_api_key, hc, hch, hkk]⟩
  · intro s hs
    simp [action_message, hs]
  · intro u mm hu
    simp [action_message, hu]
  · intro m hm
    simp [action_message, hm]
  · intro e he
    simp [action_message, he]

/-- Claim C3: key resolution is memoized per adapter instance: a successful
resolution stores the key in the cache; with the cache set, every later access
returns the same string with no `get_credentials` call and unchanged state, so
across any number of accesses after a first cache-missing successful
resolution exactly one `get_credentials` call is made in total; and no
operation of the adapter clears or overwrites the cached key once set — in
particular any later failed call leaves the cache unchanged. -/
theorem C3_memoization (app : SerpapiApp) (k : String) :
    (∀ st c, serpapi_api_key app = ⟨.ok k, st, c⟩ → st._serpapi_api_key = some k) ∧
    (app._serpapi_api_key = some k →
      serpapi_api_key app = ⟨.ok k, app, 0⟩ ∧
      (∀ n, accessN n app = (app, 0)) ∧
      (∀ ps remote, ((search app ps remote).2)._serpapi_api_key = some k) ∧
      (∀ q ll (get : String → List (String × String) → HttpResponse Nat),
        ((google_maps_search app q ll get).2)._serpapi_api_key = some k) ∧
      (∀ d hl (get : String → List (String × String) → HttpResponse Nat),
        ((get_google_maps_reviews app d hl get).2)._serpapi_api_key = some k)) ∧
    (app._serpapi_api_key = none → (serpapi_api_key app).result = .ok k →
      ∀ n, (accessN (n + 1) app).2 = 1) := by
  refine ⟨resolve_ok_caches app k, ?_, ?_⟩
  · intro hc
    have hr := resolve_cached app k hc
    refine ⟨hr, fun n => accessN_cached n app k hc, ?_, ?_, ?_⟩
    · intro ps remote
      rw [search_state, hr]
      exact hc
    · intro q ll get
      rw [google_maps_search_state, hr]
      exact hc
    · intro d hl get
      rw [get_google_maps_reviews_state, hr]
      exact hc
  · intro h0 hres n
    obtain ⟨hc1, hst⟩ := resolve_miss app k h0 hres
    simp [accessN, accessN_cached n (serpapi_api_key app).state k hst, hc1]

/-- Claim C8: the query `search` sends always contains `engine` and `api_key`;
the defaults are engine "google_light" and the resolved key, and every entry
of the caller's params overrides the adapter's value under the same name,
including `engine` and `api_key`. -/
theorem C8_query_merge (key : String) (ps : List (String × String)) :
    (dictGet (buildSearchQuery key ps) "engine").isSome = true ∧
    (dictGet (buildSearchQuery key ps) "api_key").isSome = true ∧
    (lookupLast ps "engine" = none →
      dictGet (buildSearchQuery key ps) "engine" = some "google_light") ∧
    (lookupLast ps "api_key" = none →
      dictGet (buildSearchQuery key ps) "api_key" = some key) ∧
    (∀ n v, lookupLast ps n = some v → dictGet (buildSearchQuery key ps) n = some v) := by
  have hfold : ∀ n, dictGet (buildSearchQuery key ps) n =
      match lookupLast ps n with
      | some v => some v
      | none => dictGet [("api_key", key), ("engine", "google_light")] n :=
    fun n => dictGet_foldl ps _ n
  refine ⟨?_, ?_, ?_, ?_, ?_⟩
  · rw [hfold]
    cases lookupLast ps "engine" <;> rfl
  · rw [hfold]
    cases lookupLast ps "api_key" <;> rfl
  · intro h
    rw [hfold, h]
    rfl
  · intro h
    rw [hfold, h]
    rfl
  · intro n v h
    rw [hfold, h]

/-- Claim C9: `google_maps_search` builds query parameters holding exactly the
engine "google_maps", the query, the resolved key, and `ll` exactly when a
location hint is supplied (the engine is fixed, no caller override exists);
it issues a GET against the search endpoint `base_url` and returns the parsed
response body unmodified. -/
theorem C9_google_maps_search (α : Type) (app : SerpapiApp) (k q : String)
    (ll : Option String) (get : String → List (String × String) → HttpResponse α)
    (body : α)
    (hres : (serpapi_api_key app).result = .ok k) :
    dictGet (google_maps_search_query k q ll) "engine" = some "google_maps" ∧
    dictGet (google_maps_search_query k q ll) "q" = some q ∧
    dictGet (google_maps_search_query k q ll) "api_key" = some k ∧
    dictGet (google_maps_search_query k q ll) "ll" = ll ∧
    (∀ n, n ∉ ["engine", "q", "api_key", "ll"] →
      dictGet (google_maps_search_query k q ll) n = none) ∧
    (google_maps_search app q ll get).1 =
      handle_response (get base_url (google_maps_search_query k q ll)) ∧
    (get base_url (google_maps_search_query k q ll) = .ok body →
      (google_maps_search app q ll get).1 = .ok body) := by
  refine ⟨?_, ?_, ?_, ?_, ?_, ?_, ?_⟩
  · cases ll <;> rfl
  · cases ll <;> rfl
  · cases ll <;> rfl
  · cases ll <;> rfl
  · intro n hn
    simp only [List.mem_cons, List.not_mem_nil, or_false, not_or] at hn
    obtain ⟨h1, h2, h3, h4⟩ := hn
    have e1 : (("engine" : String) == n) = false := beq_eq_false_iff_ne.mpr (Ne.symm h1)
    have e2 : (("q" : String) == n) = false := beq_eq_false_iff_ne.mpr (Ne.symm h2)
    have e3 : (("api_key" : String) == n) = false := beq_eq_false_iff_ne.mpr (Ne.symm h3)
    have e4 : (("ll" : String) == n) = false := beq_eq_false_iff_ne.mpr (Ne.symm h4)
    cases ll <;>
      simp [google_maps_search_query, dictGet_cons, dictGet_nil, e1, e2, e3, e4]
  · simp [google_maps_search, hres]
  · intro hg
    simp [google_maps_search, hres, hg, handle_response]

/-- Claim C10: `get_google_maps_reviews` builds query parameters with the
engine "google_maps_reviews", the data id, the resolved key, and an `hl`
parameter that is always present, equal to the supplied language or to the
literal "en" when none is supplied. -/
theorem C10_reviews_query (α : Type) (app : SerpapiApp) (k data_id : String)
    (hl : Option String) (get : String → List (String × String) → HttpResponse α)
    (hres : (serpapi_api_key app).result = .ok k) :
    dictGet (get_google_maps_reviews_query k data_id hl) "engine" =
      some "google_maps_reviews" ∧
    dictGet (get_google_maps_reviews_query k data_id hl) "data_id" = some data_id ∧
    dictGet (get_google_maps_reviews_query k data_id hl) "api_key" = some k ∧
    dictGet (get_google_maps_reviews_query k data_id hl) "hl" = some (hl.getD "en") ∧
    (get_google_maps_reviews app data_id hl get).1 =
      handle_response (get base_url (get_google_maps_reviews_query k data_id hl)) := by
  refine ⟨?_, ?_, ?_, ?_, ?_⟩
  · cases hl <;> rfl
  · cases hl <;> rfl
  · cases hl <;> rfl
  · cases hl <;> rfl
  · simp [get_google_maps_reviews, hres]

/-! ## Witnesses -/

/-- Witness for C1, at the response body whose error text is
"Missing q parameter". -/
theorem C1_error_field_classification_witness :
    (search ⟨some "K", none⟩ none
        (fun _ => .ok ⟨some "Missing q parameter", none⟩)).1 =
      .ok ("SerpApi API Error: " ++ "Missing q parameter") :=
  (C1_error_field_classification ⟨some "K", none⟩ "K" none
      (fun _ => .ok ⟨some "Missing q parameter", none⟩)
      ⟨some "Missing q parameter", none⟩ "Missing q parameter" rfl rfl rfl).1.2
    (by decide)

/-- Witness for C2, at an integration whose `get_credentials` raises a
`NotAuthorizedError` with message "denied". -/
theorem C2_key_resolution_witness :
    serpapi_api_key ⟨none, some ⟨.notAuthorized "denied", none⟩⟩ =
      ⟨.error "denied", ⟨none, some ⟨.notAuthorized "denied", none⟩⟩, 1⟩ :=
  (C2_key_resolution ⟨.notAuthorized "denied", none⟩).2.1 "denied" rfl

/-- Witness for C3, at an adapter whose cache already holds the key "K". -/
theorem C3_memoization_witness :
    serpapi_api_key ⟨some "K", some ⟨.ok [], none⟩⟩ =
      ⟨.ok "K", ⟨some "K", some ⟨.ok [], none⟩⟩, 0⟩ :=
  ((C3_memoization ⟨some "K", some ⟨.ok [], none⟩⟩ "K").2.1 rfl).1

/-- Witness for C4, at the single organic result (title "A", link "http://a",
snippet "s"). -/
theorem C4_organic_results_formatting_witness :
    (search ⟨some "K", none⟩ none
        (fun _ => .ok ⟨none, some [⟨some "A", some "http://a", some "s"⟩]⟩)).1 =
      .ok (String.intercalate "\n"
        (([⟨some "A", some "http://a", some "s"⟩] : List OrganicResult).map formatResult)) :=
  (C4_organic_results_formatting ⟨some "K", none⟩ "K" none
      (fun _ => .ok ⟨none, some [⟨some "A", some "http://a", some "s"⟩]⟩)
      ⟨none, some [⟨some "A", some "http://a", some "s"⟩]⟩
      [⟨some "A", some "http://a", some "s"⟩] rfl rfl rfl rfl
      (List.cons_ne_nil _ _)).1

/-- Witness for C5, at a response body with an empty `organic_results`. -/
theorem C5_no_organic_results_witness :
    (search ⟨some "K", none⟩ none (fun _ => .ok ⟨none, some []⟩)).1 =
      .ok "No organic results found." :=
  C5_no_organic_results ⟨some "K", none⟩ "K" none (fun _ => .ok ⟨none, some []⟩)
    ⟨none, some []⟩ rfl rfl rfl (Or.inr rfl)

/-- Witness for C6, at an HTTP 500 status error. -/
theorem C6_http_status_classification_witness :
    (search ⟨some "K", none⟩ none
        (fun _ => .httpStatusError 500 "Server Error")).1 =
      .ok ("HTTP Error: " ++ toString (500 : Nat) ++ " - " ++ "Server Error") := by
  have h := C6_http_status_classification ⟨some "K", none⟩ "K" none 500 "Server Error"
    (fun _ => .httpStatusError 500 "Server Error") rfl rfl
  rw [h]
  rfl

/-- Witness for C7, at a generic exception with message "connection reset". -/
theorem C7_exception_classification_witness :
    (search ⟨some "K", none⟩ none (fun _ => .exc "connection reset")).1 =
      .ok ("An unexpected error occurred during search: " ++ "connection reset") :=
  (C7_exception_classification ⟨some "K", none⟩ "K" none "connection reset"
      (fun _ => .exc "connection reset") rfl rfl).1.2 (by decide)

/-- Witness for C8: caller params override the default engine. -/
theorem C8_query_merge_witness :
    dictGet (buildSearchQuery "K" [("engine", "bing"), ("q", "x")]) "engine" =
      some "bing" :=
  (C8_query_merge "K" [("engine", "bing"), ("q", "x")]).2.2.2.2 "engine" "bing" rfl

/-- Witness for C9, at the query "Coffee" with a location hint. -/
theorem C9_google_maps_search_witness :
    (google_maps_search ⟨some "K", none⟩ "Coffee" (some "@40.7,-74.0,14z")
        (fun _ _ => HttpResponse.ok (7 : Nat))).1 = .ok 7 :=
  (C9_google_maps_search Nat ⟨some "K", none⟩ "K" "Coffee" (some "@40.7,-74.0,14z")
      (fun _ _ => HttpResponse.ok (7 : Nat)) 7 rfl).2.2.2.2.2.2 rfl

/-- Witness for C10, at the data id "id123" with no language supplied: `hl`
defaults to "en". -/
theorem C10_reviews_query_witness :
    dictGet (get_google_maps_reviews_query "K" "id123" none) "hl" = some "en" :=
  (C10_reviews_query Nat ⟨some "K", none⟩ "K" "id123" none
      (fun _ _ => HttpResponse.ok 0) rfl).2.2.2.1
